import Mathlib

/-!
Verification of the pipedrive-mcp-server repository (src/src/index.ts).

The file shallowly embeds the tool handlers of the MCP server. Upstream
API responses are opaque JSON values; the handlers only inspect the two
fields the loops read (data, additional_data.pagination.more_items_in_collection),
so pages are modelled as a structure holding exactly those. Network calls
are modelled by passing the upstream behaviour as an explicit function
(offset to page, or request to response); a thrown upstream error is an
Except.error and the try/catch of each handler is the match on it. The
protocol result envelope, which in the source is either
  { content: [ { type: "text", text: JSON.stringify(payload) } ] }
or, in a catch block,
  { content: [ { type: "text", text: message } ], isError: true },
is modelled by a two-constructor type: ok carries the payload value that
gets stringified, err carries the message text of the isError-flagged
envelope.
-/

namespace PipedriveMcp

/-- JSON-like values: the opaque records the upstream API returns. The
handlers pass them through without inspecting them, except for the stage
tagging of get-stages and the fields read by the pagination loops. -/
inductive JVal where
  | null : JVal
  | bool (b : Bool) : JVal
  | num (n : Int) : JVal
  | str (s : String) : JVal
  | arr (xs : List JVal) : JVal
  | obj (fields : List (String × JVal)) : JVal

/-- One upstream list page as the pagination loops inspect it
(index.ts lines 95-126): the data field, none when it is absent or not an
array, and the nested additional_data.pagination.more_items_in_collection
flag, none when any level of that optional chain is absent. -/
structure Page where
  data : Option (List JVal)
  moreItems : Option Bool

/-- A tool handler result. ok is the non-error envelope whose text is the
stringified payload; err is the catch-block envelope carrying the error
message text together with isError: true. -/
inductive ToolResult where
  | ok (payload : JVal) : ToolResult
  | err (msg : String) : ToolResult

/-- The while loop of get-deals (index.ts lines 84-133), translated with the
loop state (allDeals, start, pageCount) as arguments. The second component
of the result is the list of offsets at which the upstream was called
(one fetch happens per loop iteration in the source), recorded so that
properties about the number and order of upstream requests can be stated;
the first component is Except.error e when the iteration threw.
Literals 500 (limit) and 10000 (safety break) are as in the source. -/
def getDealsLoop (fetch : Nat → Except String Page) (count_only : Bool)
    (acc : List JVal) (start pageCount : Nat) :
    Except String (List JVal × Nat × Nat) × List Nat :=
  match fetch start with
  | .error e => (.error e, [start])
  | .ok page =>
      let acc2 := match page.data with
        | some items => if count_only then acc else acc ++ items
        | none => acc
      if page.moreItems.getD false then
        if _h : 10000 ≤ start + 500 then
          (.ok (acc2, start + 500, pageCount + 1), [start])
        else
          let rest := getDealsLoop fetch count_only acc2 (start + 500) (pageCount + 1)
          (rest.1, start :: rest.2)
      else
        (.ok (acc2, start, pageCount + 1), [start])
termination_by 10000 - start
decreasing_by omega

/-- The get-deals handler (index.ts lines 64-176). The totalCount returned in
count_only mode is the final value of start, exactly as in line 135 of the
source; the non-count branch returns the accumulated deals. -/
def getDeals (fetch : Nat → Except String Page) (status : Option String)
    (count_only : Option Bool) : ToolResult :=
  let co := count_only.getD false
  match (getDealsLoop fetch co [] 0 0).1 with
  | .error e => .err ("Error fetching deals: " ++ e)
  | .ok (allDeals, finalStart, _pageCount) =>
      let statusFilter := status.getD "all_not_deleted"
      if co then
        .ok (.obj [("total_count", .num (finalStart : Int)),
                   ("status_filter", .str statusFilter),
                   ("message", .str ("Found " ++ toString finalStart ++ " deals"))])
      else
        .ok (.obj [("total_count", .num (allDeals.length : Int)),
                   ("status_filter", .str statusFilter),
                   ("deals", .arr allDeals)])

/-- The while loop of get-persons (index.ts lines 302-340): identical control
flow to the get-deals loop but with no count_only mode. The trace of
requested offsets is recorded as in getDealsLoop. -/
def getPersonsLoop (fetch : Nat → Except String Page)
    (acc : List JVal) (start pageCount : Nat) :
    Except String (List JVal × Nat × Nat) × List Nat :=
  match fetch start with
  | .error e => (.error e, [start])
  | .ok page =>
      let acc2 := match page.data with
        | some items => acc ++ items
        | none => acc
      if page.moreItems.getD false then
        if _h : 10000 ≤ start + 500 then
          (.ok (acc2, start + 500, pageCount + 1), [start])
        else
          let rest := getPersonsLoop fetch acc2 (start + 500) (pageCount + 1)
          (rest.1, start :: rest.2)
      else
        (.ok (acc2, start, pageCount + 1), [start])
termination_by 10000 - start
decreasing_by omega

/-- The get-persons handler (index.ts lines 287-366). -/
def getPersons (fetch : Nat → Except String Page) : ToolResult :=
  match (getPersonsLoop fetch [] 0 0).1 with
  | .error e => .err ("Error fetching persons: " ++ e)
  | .ok (allPersons, _finalStart, _pageCount) =>
      .ok (.obj [("total_count", .num (allPersons.length : Int)),
                 ("persons", .arr allPersons)])

/-- The while loop of get-organizations (index.ts lines 442-480): the same
duplicated pattern as the persons loop. -/
def getOrganizationsLoop (fetch : Nat → Except String Page)
    (acc : List JVal) (start pageCount : Nat) :
    Except String (List JVal × Nat × Nat) × List Nat :=
  match fetch start with
  | .error e => (.error e, [start])
  | .ok page =>
      let acc2 := match page.data with
        | some items => acc ++ items
        | none => acc
      if page.moreItems.getD false then
        if _h : 10000 ≤ start + 500 then
          (.ok (acc2, start + 500, pageCount + 1), [start])
        else
          let rest := getOrganizationsLoop fetch acc2 (start + 500) (pageCount + 1)
          (rest.1, start :: rest.2)
      else
        (.ok (acc2, start, pageCount + 1), [start])
termination_by 10000 - start
decreasing_by omega

/-- The get-organizations handler (index.ts lines 427-506). -/
def getOrganizations (fetch : Nat → Except String Page) : ToolResult :=
  match (getOrganizationsLoop fetch [] 0 0).1 with
  | .error e => .err ("Error fetching organizations: " ++ e)
  | .ok (allOrganizations, _finalStart, _pageCount) =>
      .ok (.obj [("total_count", .num (allOrganizations.length : Int)),
                 ("organizations", .arr allOrganizations)])

/-- The get-deal handler (index.ts lines 179-205). The adapter call is the
argument: ok carries response.data, error the thrown message. -/
def getDeal (resp : Except String JVal) (dealId : Int) : ToolResult :=
  match resp with
  | .ok d => .ok d
  | .error e => .err ("Error fetching deal " ++ toString dealId ++ ": " ++ e)

/-- The search-deals handler (index.ts lines 258-284). -/
def searchDeals (resp : Except String JVal) : ToolResult :=
  match resp with
  | .ok d => .ok d
  | .error e => .err ("Error searching deals: " ++ e)

/-- The get-person handler (index.ts lines 369-395). -/
def getPerson (resp : Except String JVal) (personId : Int) : ToolResult :=
  match resp with
  | .ok d => .ok d
  | .error e => .err ("Error fetching person " ++ toString personId ++ ": " ++ e)

/-- The search-persons handler (index.ts lines 398-424). -/
def searchPersons (resp : Except String JVal) : ToolResult :=
  match resp with
  | .ok d => .ok d
  | .error e => .err ("Error searching persons: " ++ e)

/-- The get-organization handler (index.ts lines 509-535). -/
def getOrganization (resp : Except String JVal) (organizationId : Int) : ToolResult :=
  match resp with
  | .ok d => .ok d
  | .error e => .err ("Error fetching organization " ++ toString organizationId ++ ": " ++ e)

/-- The search-organizations handler (index.ts lines 538-564). -/
def searchOrganizations (resp : Except String JVal) : ToolResult :=
  match resp with
  | .ok d => .ok d
  | .error e => .err ("Error searching organizations: " ++ e)

/-- The get-pipelines handler (index.ts lines 567-591). -/
def getPipelines (resp : Except String JVal) : ToolResult :=
  match resp with
  | .ok d => .ok d
  | .error e => .err ("Error fetching pipelines: " ++ e)

/-- The get-pipeline handler (index.ts lines 594-620). -/
def getPipeline (resp : Except String JVal) (pipelineId : Int) : ToolResult :=
  match resp with
  | .ok d => .ok d
  | .error e => .err ("Error fetching pipeline " ++ toString pipelineId ++ ": " ++ e)

/-- The search-leads handler (index.ts lines 673-699). -/
def searchLeads (resp : Except String JVal) : ToolResult :=
  match resp with
  | .ok d => .ok d
  | .error e => .err ("Error searching leads: " ++ e)

/-- The search-all handler (index.ts lines 702-732). -/
def searchAll (resp : Except String JVal) : ToolResult :=
  match resp with
  | .ok d => .ok d
  | .error e => .err ("Error performing search: " ++ e)

/-- One changelog request as issued by get-deal-history (index.ts lines
220-224): id, cursor (passed as undefined, hence none) and limit. -/
structure ChangelogReq where
  id : Int
  cursor : Option String
  reqLimit : Int
deriving DecidableEq

/-- The parsed changelog response as the handler reads it: the data field
and additional_data.next_cursor, each none when absent. -/
structure ChangelogResp where
  data : Option (List JVal)
  nextCursor : Option String

/-- The JS expression limit || 100 of index.ts line 223: an omitted limit,
and also a falsy limit of 0, defaults to 100. -/
def effectiveLimit (lim : Option Int) : Int :=
  match lim with
  | some l => if l = 0 then 100 else l
  | none => 100

/-- The get-deal-history handler (index.ts lines 208-255). The second
component records every changelog request issued to the upstream adapter;
the source issues exactly one per invocation and never follows next_cursor.
The next_cursor output mirrors the JS next_cursor || null and the history
fields mirror data?.length || 0 and data || []. -/
def getDealHistory (adapter : ChangelogReq → Except String ChangelogResp)
    (dealId : Int) (lim : Option Int) : ToolResult × List ChangelogReq :=
  let req : ChangelogReq := ⟨dealId, none, effectiveLimit lim⟩
  match adapter req with
  | .error e => (.err ("Error fetching deal " ++ toString dealId ++ " history: " ++ e), [req])
  | .ok resp =>
      (.ok (.obj [("deal_id", .num dealId),
                  ("history_count", .num ((resp.data.getD []).length : Int)),
                  ("next_cursor", match resp.nextCursor with
                                  | some c => if c = "" then JVal.null else .str c
                                  | none => JVal.null),
                  ("history", .arr (resp.data.getD []))]),
       [req])

/-- A pipeline record as the get-stages handler reads it: only the id and
name fields are inspected (index.ts lines 638 and 644). -/
structure Pipeline where
  id : Int
  name : String

/-- The parsed body of one stages fetch of get-stages (index.ts lines
638-641): the success flag and the data field, none when absent. -/
structure StagesResp where
  success : Bool
  data : Option (List JVal)

/-- The JS spread { ...stage, pipeline_name: name } of index.ts lines
642-645: on an object, every field is kept except that pipeline_name is
(re)bound to the given value; stages are objects upstream. -/
def spreadSet (v : JVal) (k : String) (w : JVal) : JVal :=
  match v with
  | .obj fs => .obj ((fs.filter (fun p => !(p.1 == k))) ++ [(k, w)])
  | _ => .obj [(k, w)]

/-- One iteration of the for loop of get-stages (index.ts lines 635-651):
an inner-catch failure is skipped, and stages are appended tagged with the
parent pipeline name when success and data are both truthy. -/
def stagesStep (sfetch : Int → Except String StagesResp)
    (acc : List JVal) (pl : Pipeline) : List JVal :=
  match sfetch pl.id with
  | .error _ => acc
  | .ok sd =>
      match sd.data with
      | some stages =>
          if sd.success then
            acc ++ stages.map (fun st => spreadSet st "pipeline_name" (.str pl.name))
          else acc
      | none => acc

/-- The get-stages handler (index.ts lines 623-670): fetch all pipelines,
then for each pipeline fetch and tag its stages, skipping per-pipeline
failures; the result payload is the bare array of stages. -/
def getStages (pipelinesResp : Except String (Option (List Pipeline)))
    (sfetch : Int → Except String StagesResp) : ToolResult :=
  match pipelinesResp with
  | .error e => .err ("Error fetching stages: " ++ e)
  | .ok d => .ok (.arr ((d.getD []).foldl (stagesStep sfetch) []))

/-- Field lookup in a JSON object value; none on non-objects. -/
def jLookup (v : JVal) (k : String) : Option JVal :=
  match v with
  | .obj fs => fs.lookup k
  | _ => none

/-- Field lookup in the payload of a successful tool result. -/
def resultLookup (r : ToolResult) (k : String) : Option JVal :=
  match r with
  | .ok payload => jLookup payload k
  | .err _ => none

/-- A well-formed offset-paginated upstream over a fixed dataset ds: the
page at offset s holds the up-to-500 records starting at s, and
more_items_in_collection is set exactly when records exist beyond the
page. -/
def wfFetch (ds : List JVal) : Nat → Except String Page := fun s =>
  .ok ⟨some ((ds.drop s).take 500), some (decide (s + 500 < ds.length))⟩

/-- An upstream whose every page claims that more items are available. -/
def AlwaysMore (fetch : Nat → Except String Page) : Prop :=
  ∀ s, ∃ pg, fetch s = .ok pg ∧ pg.moreItems.getD false = true

/-- Fixture: a single upstream page of three deals with
more_items_in_collection false, served at every offset. -/
def c1Fetch : Nat → Except String Page := fun _ =>
  .ok ⟨some [JVal.num 1, JVal.num 2, JVal.num 3], some false⟩

/-- Fixture: every page holds one deal and claims more items exist, so an
aggregation runs into the 10000 safety break. -/
def ceilFetch : Nat → Except String Page := fun _ =>
  .ok ⟨some [JVal.num 1], some true⟩

/-- Fixture: the page at offset 0 has no data array but its pagination
metadata claims more items; the page at offset 500 has one deal and no
further items. -/
def c3Fetch : Nat → Except String Page := fun s =>
  if s = 0 then .ok ⟨none, some true⟩ else .ok ⟨some [JVal.num 7], some false⟩

/-- Fixture: a page with neither data array nor pagination metadata. -/
def c3bFetch : Nat → Except String Page := fun _ => .ok ⟨none, none⟩

/-- Fixture: a page carrying one deal but no pagination metadata at all. -/
def c6Fetch : Nat → Except String Page := fun _ => .ok ⟨some [JVal.num 5], none⟩

/-- Fixture: the fetch at offset 0 succeeds claiming more items, the fetch
at offset 500 throws. -/
def c7Fetch : Nat → Except String Page := fun s =>
  if s = 0 then .ok ⟨some [JVal.num 9], some true⟩ else .error "boom"

/-- Fixture: an upstream that is down: every page fetch throws. -/
def downFetch : Nat → Except String Page := fun _ => .error "down"

/-- Fixture: a changelog adapter answering with neither data nor
next_cursor. -/
def histAdapterEmpty : ChangelogReq → Except String ChangelogResp := fun _ =>
  .ok ⟨none, none⟩

/-- Fixture: pages with no data array claiming more items forever, so an
aggregation runs into the 10000 safety break with nothing accumulated. -/
def ceil2Fetch : Nat → Except String Page := fun _ => .ok ⟨none, some true⟩

/-- Fixture: the dataset of the 3-pages-of-500 scenario, 1500 records. -/
def ds1500 : List JVal := List.replicate 1500 (JVal.num 0)

/-- Fixture: a stages fetch that fails for pipeline 1 and answers one stage
for every other pipeline. -/
def c9sfetch : Int → Except String StagesResp := fun i =>
  if i = 1 then .error "bad" else .ok ⟨true, some [JVal.num 11]⟩

/-! Helper lemmas shared by the claim theorems. -/

theorem lookup_filter_append (k : String) (w : JVal) :
    ∀ fs : List (String × JVal),
      ((fs.filter (fun p => !(p.1 == k))) ++ [(k, w)]).lookup k = some w := by
  intro fs
  induction fs with
  | nil => simp [List.lookup]
  | cons p fs ih =>
      by_cases h : p.1 == k
      · simp [List.filter_cons, h, ih]
      · have h2 : (k == p.1) = false := by
          rw [beq_eq_false_iff_ne]
          intro hk
          rw [hk] at h
          simp at h
        simp only [List.filter_cons, h, Bool.not_false, if_true, List.cons_append]
        simp [List.lookup, h2, ih]

theorem jLookup_spreadSet (v w : JVal) (k : String) :
    jLookup (spreadSet v k w) k = some w := by
  cases v <;> simp [spreadSet, jLookup, List.lookup, lookup_filter_append]

theorem mem_stagesFold (sfetch : Int → Except String StagesResp) :
    ∀ (ps : List Pipeline) (acc : List JVal) (st : JVal),
      st ∈ ps.foldl (stagesStep sfetch) acc →
      st ∈ acc ∨ ∃ pl ∈ ps, ∃ sd, sfetch pl.id = .ok sd ∧ sd.success = true ∧
        ∃ stages, sd.data = some stages ∧ ∃ st0 ∈ stages,
          st = spreadSet st0 "pipeline_name" (.str pl.name) := by
  intro ps
  induction ps with
  | nil =>
      intro acc st h
      simp at h
      exact .inl h
  | cons pl ps ih =>
      intro acc st h
      rw [List.foldl_cons] at h
      rcases ih (stagesStep sfetch acc pl) st h with hin | ⟨pl2, hpl2, rest⟩
      · unfold stagesStep at hin
        rcases hsf : sfetch pl.id with e | sd <;> rw [hsf] at hin
        · exact .inl hin
        · dsimp only at hin
          rcases hd : sd.data with _ | stages <;> rw [hd] at hin
          · exact .inl hin
          · dsimp only at hin
            by_cases hs : sd.success = true
            · rw [if_pos hs] at hin
              rcases List.mem_append.mp hin with hin2 | hin2
              · exact .inl hin2
              · obtain ⟨st0, hst0, hmap⟩ := List.mem_map.mp hin2
                exact .inr ⟨pl, List.mem_cons_self pl ps, sd, hsf, hs, stages, hd,
                  st0, hst0, hmap.symm⟩
            · rw [if_neg hs] at hin
              exact .inl hin
      · exact .inr ⟨pl2, List.mem_cons_of_mem pl hpl2, rest⟩

theorem getDeals_no_terminated_early (fetch : Nat → Except String Page)
    (status : Option String) (co : Option Bool) :
    resultLookup (getDeals fetch status co) "terminated_early" = none := by
  cases h : (getDealsLoop fetch (co.getD false) [] 0 0).1 with
  | error e => simp [getDeals, h, resultLookup]
  | ok t =>
      obtain ⟨allDeals, finalStart, pc⟩ := t
      rcases hco : co.getD false with _ | _ <;>
        rw [hco] at h <;>
        simp [getDeals, h, hco, resultLookup, jLookup, List.lookup]

theorem dealsLoop_wf_aux (ds : List JVal) (hN : ds.length < 10000) :
    ∀ j k (acc : List JVal) (pc : Nat), ds.length ≤ 500 * k + 500 * j →
      ∃ s2 pc2, (getDealsLoop (wfFetch ds) false acc (500 * k) pc).1
        = .ok (acc ++ ds.drop (500 * k), s2, pc2) := by
  intro j
  induction j with
  | zero =>
      intro k acc pc hle
      have hnm : ¬ (500 * k + 500 < ds.length) := by omega
      have hdrop : ds.drop (500 * k) = [] := List.drop_eq_nil_of_le (by omega)
      rw [getDealsLoop.eq_def]
      simp [wfFetch, hnm, hdrop]
  | succ j ih =>
      intro k acc pc hle
      by_cases hm : 500 * k + 500 < ds.length
      · have hnb : ¬ (10000 ≤ 500 * k + 500) := by omega
        have hk1 : 500 * k + 500 = 500 * (k + 1) := by ring
        obtain ⟨s2, pc2, heq⟩ :=
          ih (k + 1) (acc ++ (ds.drop (500 * k)).take 500) (pc + 1) (by omega)
        have hdd : List.drop (500 * (k + 1)) ds = List.drop 500 (List.drop (500 * k) ds) := by
          rw [List.drop_drop]
          congr 1
        have hlist : acc ++ List.take 500 (List.drop (500 * k) ds)
              ++ List.drop (500 * (k + 1)) ds
            = acc ++ List.drop (500 * k) ds := by
          rw [List.append_assoc, hdd, List.take_append_drop]
        rw [getDealsLoop.eq_def]
        simp only [wfFetch, Option.getD_some, hm, hnb, dite_false, if_false,
          Bool.false_eq_true, decide_eq_true_eq, if_true]
        exact ⟨s2, pc2, by rw [hk1, heq, hlist]⟩
      · have hdrop : (ds.drop (500 * k)).take 500 = ds.drop (500 * k) := by
          apply List.take_of_length_le
          rw [List.length_drop]
          omega
        rw [getDealsLoop.eq_def]
        simp [wfFetch, hm, hdrop]

set_option maxRecDepth 4000 in
theorem dealsLoop_ceiling (fetch : Nat → Except String Page) (co : Bool)
    (h : AlwaysMore fetch) :
    ∀ j, j + 1 ≤ 20 → ∀ (acc : List JVal) (pc : Nat), ∃ acc2,
      (getDealsLoop fetch co acc (10000 - 500 * (j + 1)) pc).1
        = .ok (acc2, 10000, pc + (j + 1)) := by
  intro j
  induction j with
  | zero =>
      intro _ acc pc
      obtain ⟨pg, hf, hmore⟩ := h (10000 - 500 * (0 + 1))
      rw [getDealsLoop.eq_def, hf]
      simp [hmore]
  | succ j ih =>
      intro hj acc pc
      obtain ⟨pg, hf, hmore⟩ := h (10000 - 500 * (j + 1 + 1))
      have hnb : ¬ (10000 ≤ 10000 - 500 * (j + 1)) := by omega
      have hstep : 10000 - 500 * (j + 1 + 1) + 500 = 10000 - 500 * (j + 1) := by omega
      rw [getDealsLoop.eq_def, hf]
      simp only [hmore, if_true, hnb, dite_false, hstep]
      obtain ⟨acc2, heq⟩ := ih (by omega)
        (match pg.data with
         | some items => if co then acc else acc ++ items
         | none => acc) (pc + 1)
      have hpc : pc + 1 + (j + 1) = pc + (j + 1 + 1) := by omega
      rw [hpc] at heq
      exact ⟨acc2, heq⟩

set_option maxRecDepth 4000 in
theorem personsLoop_ceiling (fetch : Nat → Except String Page)
    (h : AlwaysMore fetch) :
    ∀ j, j + 1 ≤ 20 → ∀ (acc : List JVal) (pc : Nat), ∃ acc2,
      (getPersonsLoop fetch acc (10000 - 500 * (j + 1)) pc).1
        = .ok (acc2, 10000, pc + (j + 1)) := by
  intro j
  induction j with
  | zero =>
      intro _ acc pc
      obtain ⟨pg, hf, hmore⟩ := h (10000 - 500 * (0 + 1))
      rw [getPersonsLoop.eq_def, hf]
      simp [hmore]
  | succ j ih =>
      intro hj acc pc
      obtain ⟨pg, hf, hmore⟩ := h (10000 - 500 * (j + 1 + 1))
      have hnb : ¬ (10000 ≤ 10000 - 500 * (j + 1)) := by omega
      have hstep : 10000 - 500 * (j + 1 + 1) + 500 = 10000 - 500 * (j + 1) := by omega
      rw [getPersonsLoop.eq_def, hf]
      simp only [hmore, if_true, hnb, dite_false, hstep]
      obtain ⟨acc2, heq⟩ := ih (by omega)
        (match pg.data with
         | some items => acc ++ items
         | none => acc) (pc + 1)
      have hpc : pc + 1 + (j + 1) = pc + (j + 1 + 1) := by omega
      rw [hpc] at heq
      exact ⟨acc2, heq⟩

set_option maxRecDepth 4000 in
theorem organizationsLoop_ceiling (fetch : Nat → Except String Page)
    (h : AlwaysMore fetch) :
    ∀ j, j + 1 ≤ 20 → ∀ (acc : List JVal) (pc : Nat), ∃ acc2,
      (getOrganizationsLoop fetch acc (10000 - 500 * (j + 1)) pc).1
        = .ok (acc2, 10000, pc + (j + 1)) := by
  intro j
  induction j with
  | zero =>
      intro _ acc pc
      obtain ⟨pg, hf, hmore⟩ := h (10000 - 500 * (0 + 1))
      rw [getOrganizationsLoop.eq_def, hf]
      simp [hmore]
  | succ j ih =>
      intro hj acc pc
      obtain ⟨pg, hf, hmore⟩ := h (10000 - 500 * (j + 1 + 1))
      have hnb : ¬ (10000 ≤ 10000 - 500 * (j + 1)) := by omega
      have hstep : 10000 - 500 * (j + 1 + 1) + 500 = 10000 - 500 * (j + 1) := by omega
      rw [getOrganizationsLoop.eq_def, hf]
      simp only [hmore, if_true, hnb, dite_false, hstep]
      obtain ⟨acc2, heq⟩ := ih (by omega)
        (match pg.data with
         | some items => acc ++ items
         | none => acc) (pc + 1)
      have hpc : pc + 1 + (j + 1) = pc + (j + 1 + 1) := by omega
      rw [hpc] at heq
      exact ⟨acc2, heq⟩

set_option maxRecDepth 4000 in
theorem dealsLoop_error_aux (fetch : Nat → Except String Page) (co : Bool)
    (e : String) (k : Nat) (hk : k ≤ 19)
    (hfail : fetch (500 * k) = .error e)
    (hok : ∀ j, j < k → ∃ pg, fetch (500 * j) = .ok pg ∧ pg.moreItems.getD false = true) :
    ∀ r j, j + r = k → ∀ (acc : List JVal) (pc : Nat),
      getDealsLoop fetch co acc (500 * j) pc
        = (.error e, List.range' (500 * j) (r + 1) 500) := by
  intro r
  induction r with
  | zero =>
      intro j hj acc pc
      have hj2 : j = k := by omega
      subst hj2
      rw [getDealsLoop.eq_def, hfail]
      rfl
  | succ r ih =>
      intro j hj acc pc
      obtain ⟨pg, hf, hmore⟩ := hok j (by omega)
      have hnb : ¬ (10000 ≤ 500 * (j + 1)) := by omega
      have h500 : 500 * j + 500 = 500 * (j + 1) := by ring
      rw [getDealsLoop.eq_def, hf]
      simp only [hmore, if_true, h500, hnb, dite_false,
        ih (j + 1) (by omega)]
      rw [show List.range' (500 * j) (r + 1 + 1) 500
            = (500 * j) :: List.range' (500 * j + 500) (r + 1) 500 from rfl, h500]

theorem ds1500_len : ds1500.length = 1500 := by
  rw [ds1500, List.length_replicate]

/-! The claim theorems. -/

/-- Claim C1 (code bug): the claim and the spec say that count_only mode
returns a count equal to the number of items that non-count mode returns,
and that a single page of k items with more_items_in_collection false
yields count k. The code instead returns the final offset (start), which
is never advanced past the last page. At a single upstream page of 3 deals
with more_items_in_collection false, count_only mode answers
total_count 0 and the message Found 0 deals, while non-count mode returns
the 3 deals with total_count 3: the tool contradicts its own description
(Return only the count of deals). -/
theorem C1_count_only_returns_offset_not_count :
    getDeals c1Fetch none (some true)
      = .ok (.obj [("total_count", .num 0), ("status_filter", .str "all_not_deleted"),
                   ("message", .str "Found 0 deals")])
    ∧ getDeals c1Fetch none (some false)
      = .ok (.obj [("total_count", .num 3), ("status_filter", .str "all_not_deleted"),
                   ("deals", .arr [JVal.num 1, JVal.num 2, JVal.num 3])]) := by
  constructor
  · simp [getDeals, getDealsLoop, c1Fetch]
    rfl
  · simp [getDeals, getDealsLoop, c1Fetch]

/-- Claim C2, counterexample: with every page reporting one deal and more
items available, the loop exits at the 10000 ceiling after 20 pages, yet
the returned payload carries no terminated_early field at all (the claim
says the result is marked terminated_early = true; the source only logs a
console warning at line 130 and returns the ordinary payload). -/
theorem C2_counterexample_no_terminated_early_field :
    (∃ acc, (getDealsLoop ceilFetch false [] 0 0).1 = .ok (acc, 10000, 20))
    ∧ resultLookup (getDeals ceilFetch none none) "terminated_early" = none := by
  constructor
  · have h := dealsLoop_ceiling ceilFetch false
      (fun _ => ⟨⟨some [JVal.num 1], some true⟩, rfl, rfl⟩) 19 (by omega) [] 0
    simpa using h
  · exact getDeals_no_terminated_early ceilFetch none none

/-- Claim C2 as amended: when the get-deals loop exits because the offset
reached the 10000 safety ceiling, the invocation still returns a
successful (non-error) result containing the partial accumulated items;
the early termination is only logged — the returned payload has no
terminated_early field (its keys are total_count, status_filter, deals). -/
theorem C2_amended_ceiling_soft_cap (fetch : Nat → Except String Page)
    (status : Option String) (acc : List JVal) (s pc : Nat)
    (h : (getDealsLoop fetch false [] 0 0).1 = .ok (acc, s, pc)) (_hs : 10000 ≤ s) :
    getDeals fetch status none
      = .ok (.obj [("total_count", .num (acc.length : Int)),
                   ("status_filter", .str (status.getD "all_not_deleted")),
                   ("deals", .arr acc)])
    ∧ resultLookup (getDeals fetch status none) "terminated_early" = none := by
  refine ⟨by simp [getDeals, h], getDeals_no_terminated_early fetch status none⟩

/-- Witness for C2: the dataless always-more upstream hits the ceiling and
the amended statement holds there. -/
theorem C2_amended_ceiling_soft_cap_witness :
    getDeals ceil2Fetch none none
      = .ok (.obj [("total_count", .num 0),
                   ("status_filter", .str "all_not_deleted"),
                   ("deals", .arr [])])
    ∧ resultLookup (getDeals ceil2Fetch none none) "terminated_early" = none :=
  C2_amended_ceiling_soft_cap ceil2Fetch none [] 10000 20
    (by simp [getDealsLoop, ceil2Fetch]) (by omega)

/-- Claim C3, counterexample: the claim says a page whose data field is
absent terminates the loop (has_more forced to false) regardless of the
pagination metadata. In the code the more-items flag is still read from
the metadata (line 119): after a dataless page at offset 0 whose metadata
claims more items, the loop fetches offset 500 as well and returns that
page's deal — two recorded fetches, not one. -/
theorem C3_counterexample_metadata_still_read :
    getDealsLoop c3Fetch false [] 0 0 = (.ok ([JVal.num 7], 500, 2), [0, 500]) := by
  simp [getDealsLoop, c3Fetch]

/-- Claim C3 as amended: a page whose data field is absent or not an array
contributes zero items and does not fail, but the more-items flag is still
taken from that page's pagination metadata (defaulting to false when
absent); the loop therefore terminates at such a page exactly when that
metadata is absent or false. -/
theorem C3_amended_missing_data_zero_items (fetch : Nat → Except String Page)
    (co : Bool) (acc : List JVal) (start pc : Nat) (m : Option Bool)
    (hf : fetch start = .ok ⟨none, m⟩) (hm : m.getD false = false) :
    getDealsLoop fetch co acc start pc = (.ok (acc, start, pc + 1), [start]) := by
  rw [getDealsLoop.eq_def, hf]
  simp [hm]

/-- Witness for C3: a page with neither data nor metadata ends the loop
with nothing appended. -/
theorem C3_amended_missing_data_zero_items_witness :
    getDealsLoop c3bFetch false [] 0 0 = (.ok ([], 0, 1), [0]) :=
  C3_amended_missing_data_zero_items c3bFetch false [] 0 0 none rfl rfl

/-- Claim C6, counterexample: the claim says a page without pagination
metadata is treated as a final page of zero items. The flag indeed
defaults to false and the loop stops, but the page's own data items are
still appended (line 110 runs before the flag is read): a single page of
one deal with no metadata yields that deal, not zero items. -/
theorem C6_counterexample_items_still_appended :
    getDeals c6Fetch none none
      = .ok (.obj [("total_count", .num 1), ("status_filter", .str "all_not_deleted"),
                   ("deals", .arr [JVal.num 5])]) := by
  simp [getDeals, getDealsLoop, c6Fetch]

/-- Claim C6 as amended: when a page omits the pagination metadata the
more-items flag defaults to false and the loop treats the page as the
final one, returning successfully everything accumulated so far plus that
page's own data items (zero additional items only when the data field is
also absent), neither failing nor continuing to loop. -/
theorem C6_amended_missing_metadata_final_page (fetch : Nat → Except String Page)
    (acc : List JVal) (start pc : Nat) (d : Option (List JVal))
    (hf : fetch start = .ok ⟨d, none⟩) :
    getDealsLoop fetch false acc start pc
      = (.ok (acc ++ d.getD [], start, pc + 1), [start]) := by
  rw [getDealsLoop.eq_def, hf]
  cases d <;> simp

/-- Witness for C6: the one-deal metadata-less page ends the loop with the
deal appended. -/
theorem C6_amended_missing_metadata_final_page_witness :
    getDealsLoop c6Fetch false [] 0 0 = (.ok ([JVal.num 5], 0, 1), [0]) :=
  C6_amended_missing_metadata_final_page c6Fetch [] 0 0 (some [JVal.num 5]) rfl

/-- Claim C4: against an upstream whose every page claims more items
forever, each of the three pagination loops (deals, persons,
organizations) terminates after exactly 20 page fetches of size 500,
stopping with the offset at the 10000 ceiling — it never loops
unboundedly (the loops are total functions, and the page count of the
result is 20). -/
theorem C4_ceiling_termination (fd fp fo : Nat → Except String Page)
    (co : Option Bool)
    (hd : AlwaysMore fd) (hp : AlwaysMore fp) (ho : AlwaysMore fo) :
    (∃ acc, (getDealsLoop fd (co.getD false) [] 0 0).1 = .ok (acc, 10000, 20))
    ∧ (∃ acc, (getPersonsLoop fp [] 0 0).1 = .ok (acc, 10000, 20))
    ∧ (∃ acc, (getOrganizationsLoop fo [] 0 0).1 = .ok (acc, 10000, 20)) := by
  refine ⟨?_, ?_, ?_⟩
  · have h := dealsLoop_ceiling fd (co.getD false) hd 19 (by omega) [] 0
    simpa using h
  · have h := personsLoop_ceiling fp hp 19 (by omega) [] 0
    simpa using h
  · have h := organizationsLoop_ceiling fo ho 19 (by omega) [] 0
    simpa using h

/-- Witness for C4 at the always-more fixtures. -/
theorem C4_ceiling_termination_witness :
    (∃ acc, (getDealsLoop ceilFetch false [] 0 0).1 = .ok (acc, 10000, 20))
    ∧ (∃ acc, (getPersonsLoop ceil2Fetch [] 0 0).1 = .ok (acc, 10000, 20))
    ∧ (∃ acc, (getOrganizationsLoop ceil2Fetch [] 0 0).1 = .ok (acc, 10000, 20)) :=
  C4_ceiling_termination ceilFetch ceil2Fetch ceil2Fetch none
    (fun _ => ⟨⟨some [JVal.num 1], some true⟩, rfl, rfl⟩)
    (fun _ => ⟨⟨none, some true⟩, rfl, rfl⟩)
    (fun _ => ⟨⟨none, some true⟩, rfl, rfl⟩)

/-- Claim C5: over a well-formed offset-paginated upstream serving a
dataset of fewer than 10000 records with correct more-items metadata,
get-deals returns exactly the dataset, in fetch order, with total_count
equal to its length; and in the concrete 3-pages-of-500 scenario the loop
returns the 1500 records across exactly 3 recorded page fetches (at
offsets 0, 500, 1000). -/
theorem C5_wellformed_returns_all_records :
    (∀ ds : List JVal, ds.length < 10000 →
      getDeals (wfFetch ds) none none
        = .ok (.obj [("total_count", .num (ds.length : Int)),
                     ("status_filter", .str "all_not_deleted"),
                     ("deals", .arr ds)]))
    ∧ getDealsLoop (wfFetch ds1500) false [] 0 0
        = (.ok (ds1500, 1000, 3), [0, 500, 1000]) := by
  constructor
  · intro ds hN
    obtain ⟨s2, pc2, heq⟩ := dealsLoop_wf_aux ds hN 20 0 [] 0 (by omega)
    simp only [Nat.mul_zero, List.drop_zero, List.nil_append] at heq
    simp [getDeals, heq]
  · simp [getDealsLoop, wfFetch, ds1500_len]
    rw [← List.append_assoc, ← List.take_add, ← List.take_add,
        show (500 + 500 + 500 : Nat) = 1500 from rfl, ← ds1500_len, List.take_length]

/-- Witness for C5 on a concrete two-record dataset. -/
theorem C5_wellformed_returns_all_records_witness :
    getDeals (wfFetch [JVal.num 4, JVal.num 8]) none none
      = .ok (.obj [("total_count", .num 2),
                   ("status_filter", .str "all_not_deleted"),
                   ("deals", .arr [JVal.num 4, JVal.num 8])]) :=
  C5_wellformed_returns_all_records.1 [JVal.num 4, JVal.num 8] (by decide)

/-- Claim C7: if the page fetch at offset 500k throws while every earlier
page succeeded claiming more items, the whole get-deals aggregation fails
immediately: the loop result is the upstream error, the trace of issued
requests is exactly the offsets 0, 500, ..., 500k each requested once
(the failed fetch is never retried — the trace has no duplicates and
nothing after the failing offset), and the handler returns the
error-flagged envelope carrying the upstream message with no accumulated
items in it. -/
theorem C7_upstream_error_aborts (fetch : Nat → Except String Page)
    (status : Option String) (co : Option Bool) (e : String) (k : Nat)
    (hk : k ≤ 19)
    (hfail : fetch (500 * k) = .error e)
    (hok : ∀ j, j < k → ∃ pg, fetch (500 * j) = .ok pg ∧ pg.moreItems.getD false = true) :
    getDealsLoop fetch (co.getD false) [] 0 0 = (.error e, List.range' 0 (k + 1) 500)
    ∧ (List.range' 0 (k + 1) 500).Nodup
    ∧ getDeals fetch status co = .err ("Error fetching deals: " ++ e) := by
  have haux := dealsLoop_error_aux fetch (co.getD false) e k hk hfail hok k 0
    (by omega) [] 0
  simp only [Nat.mul_zero] at haux
  have h1 : (getDealsLoop fetch (co.getD false) [] 0 0).1 = .error e := by rw [haux]
  exact ⟨haux, by simp [List.nodup_range'], by simp [getDeals, h1]⟩

/-- Witness for C7: page 0 succeeds with more items, page at offset 500
throws boom; the aggregation errors after exactly the two requests 0 and
500. -/
theorem C7_upstream_error_aborts_witness :
    getDealsLoop c7Fetch false [] 0 0 = (.error "boom", List.range' 0 2 500)
    ∧ (List.range' 0 2 500).Nodup
    ∧ getDeals c7Fetch none none = .err "Error fetching deals: boom" :=
  C7_upstream_error_aborts c7Fetch none none "boom" 1 (by omega) rfl
    (by
      intro j hj
      have hj0 : j = 0 := by omega
      subst hj0
      exact ⟨⟨some [JVal.num 9], some true⟩, rfl, rfl⟩)

/-- Claim C8: for every one of the fifteen registered tools, every failure
raised by the upstream adapter during handling — including a by-ID fetch
of a nonexistent ID, which the upstream SDK surfaces as a thrown error —
is converted by the handler into the error-flagged protocol envelope
carrying the message, rather than propagating past the registry boundary
(each handler is a total function whose error branch is the err
envelope). -/
theorem C8_error_envelope_all_tools :
    (∀ (f : Nat → Except String Page) (st : Option String) (co : Option Bool) (e : String),
        (getDealsLoop f (co.getD false) [] 0 0).1 = .error e →
        getDeals f st co = .err ("Error fetching deals: " ++ e))
    ∧ (∀ (e : String) (i : Int),
        getDeal (.error e) i = .err ("Error fetching deal " ++ toString i ++ ": " ++ e))
    ∧ (∀ (ad : ChangelogReq → Except String ChangelogResp) (i : Int) (lim : Option Int)
          (e : String),
        ad ⟨i, none, effectiveLimit lim⟩ = .error e →
        (getDealHistory ad i lim).1
          = .err ("Error fetching deal " ++ toString i ++ " history: " ++ e))
    ∧ (∀ e, searchDeals (.error e) = .err ("Error searching deals: " ++ e))
    ∧ (∀ (f : Nat → Except String Page) (e : String),
        (getPersonsLoop f [] 0 0).1 = .error e →
        getPersons f = .err ("Error fetching persons: " ++ e))
    ∧ (∀ (e : String) (i : Int),
        getPerson (.error e) i = .err ("Error fetching person " ++ toString i ++ ": " ++ e))
    ∧ (∀ e, searchPersons (.error e) = .err ("Error searching persons: " ++ e))
    ∧ (∀ (f : Nat → Except String Page) (e : String),
        (getOrganizationsLoop f [] 0 0).1 = .error e →
        getOrganizations f = .err ("Error fetching organizations: " ++ e))
    ∧ (∀ (e : String) (i : Int),
        getOrganization (.error e) i
          = .err ("Error fetching organization " ++ toString i ++ ": " ++ e))
    ∧ (∀ e, searchOrganizations (.error e) = .err ("Error searching organizations: " ++ e))
    ∧ (∀ e, getPipelines (.error e) = .err ("Error fetching pipelines: " ++ e))
    ∧ (∀ (e : String) (i : Int),
        getPipeline (.error e) i = .err ("Error fetching pipeline " ++ toString i ++ ": " ++ e))
    ∧ (∀ (e : String) (sf : Int → Except String StagesResp),
        getStages (.error e) sf = .err ("Error fetching stages: " ++ e))
    ∧ (∀ e, searchLeads (.error e) = .err ("Error searching leads: " ++ e))
    ∧ (∀ e, searchAll (.error e) = .err ("Error performing search: " ++ e)) := by
  refine ⟨?_, fun e i => rfl, ?_, fun e => rfl, ?_, fun e i => rfl, fun e => rfl, ?_,
    fun e i => rfl, fun e => rfl, fun e => rfl, fun e i => rfl, fun e sf => rfl,
    fun e => rfl, fun e => rfl⟩
  · intro f st co e h
    simp [getDeals, h]
  · intro ad i lim e h
    simp [getDealHistory, h]
  · intro f e h
    simp [getPersons, h]
  · intro f e h
    simp [getOrganizations, h]

/-- Witness for C8: the down upstream makes get-deals answer the error
envelope. -/
theorem C8_error_envelope_all_tools_witness :
    getDeals downFetch none none = .err "Error fetching deals: down" :=
  C8_error_envelope_all_tools.1 downFetch none none "down"
    (by rw [getDealsLoop.eq_def]; rfl)

/-- Claim C9: in the get-stages composite lookup, every stage of the
returned aggregate comes from some pipeline of the pipelines response and
carries a pipeline_name field equal to that parent pipeline's name; and a
failure fetching one pipeline's stages skips only that pipeline: with
pipelines A then B where the stage fetch for A throws and the one for B
succeeds, the non-error result holds exactly B's stages tagged with B's
name. -/
theorem C9_stages_tagging_partial_failure :
    (∀ (d : Option (List Pipeline)) (sfetch : Int → Except String StagesResp)
        (stags : List JVal),
      getStages (.ok d) sfetch = .ok (.arr stags) →
      ∀ st ∈ stags, ∃ pl ∈ d.getD [], ∃ sd, sfetch pl.id = .ok sd ∧ sd.success = true ∧
        ∃ stages, sd.data = some stages ∧ ∃ st0 ∈ stages,
          st = spreadSet st0 "pipeline_name" (.str pl.name) ∧
          jLookup st "pipeline_name" = some (.str pl.name))
    ∧ (∀ (A B : Pipeline) (e : String) (bs : List JVal)
          (sfetch : Int → Except String StagesResp),
        sfetch A.id = .error e → sfetch B.id = .ok ⟨true, some bs⟩ →
        getStages (.ok (some [A, B])) sfetch
          = .ok (.arr (bs.map (fun st => spreadSet st "pipeline_name" (.str B.name))))) := by
  constructor
  · intro d sfetch stags hgs st hst
    have hfold : (d.getD []).foldl (stagesStep sfetch) [] = stags := by
      simpa [getStages] using hgs
    rw [← hfold] at hst
    rcases mem_stagesFold sfetch (d.getD []) [] st hst with hin
      | ⟨pl, hpl, sd, hsf, hs, stages, hd, st0, hst0, heq⟩
    · simp at hin
    · exact ⟨pl, hpl, sd, hsf, hs, stages, hd, st0, hst0, heq,
        heq ▸ jLookup_spreadSet st0 (.str pl.name) "pipeline_name"⟩
  · intro A B e bs sfetch hA hB
    simp [getStages, stagesStep, hA, hB]

/-- Witness for C9: pipeline 1 fails, pipeline 2 answers one stage; the
result is that stage tagged with the second pipeline's name. -/
theorem C9_stages_tagging_partial_failure_witness :
    getStages (.ok (some [⟨1, "First"⟩, ⟨2, "Second"⟩])) c9sfetch
      = .ok (.arr [JVal.obj [("pipeline_name", JVal.str "Second")]]) :=
  C9_stages_tagging_partial_failure.2 ⟨1, "First"⟩ ⟨2, "Second"⟩ "bad"
    [JVal.num 11] c9sfetch rfl rfl

/-- Claim C10: each get-deal-history invocation issues exactly one
changelog request, with cursor undefined and limit defaulting to 100 when
omitted, and never follows next_cursor for further pages; and when the
response lacks the data field the result reports history_count 0 with an
empty history array, while a missing next_cursor is reported as null —
the result staying a successful envelope. -/
theorem C10_single_request_and_empty_defaults
    (ad : ChangelogReq → Except String ChangelogResp) (dealId : Int) (lim : Option Int) :
    (getDealHistory ad dealId lim).2 = [⟨dealId, none, effectiveLimit lim⟩]
    ∧ effectiveLimit none = 100
    ∧ ∀ resp, ad ⟨dealId, none, effectiveLimit lim⟩ = .ok resp →
        resp.data = none → resp.nextCursor = none →
        (getDealHistory ad dealId lim).1
          = .ok (.obj [("deal_id", .num dealId), ("history_count", .num 0),
                       ("next_cursor", JVal.null), ("history", .arr [])]) := by
  refine ⟨?_, rfl, ?_⟩
  · cases hA : ad ⟨dealId, none, effectiveLimit lim⟩ <;>
      simp [getDealHistory, hA]
  · intro resp hA hd hc
    simp [getDealHistory, hA, hd, hc]

/-- Witness for C10 at the empty-response adapter. -/
theorem C10_single_request_and_empty_defaults_witness :
    (getDealHistory histAdapterEmpty 5 none).2 = [⟨5, none, 100⟩]
    ∧ (getDealHistory histAdapterEmpty 5 none).1
        = .ok (.obj [("deal_id", .num 5), ("history_count", .num 0),
                     ("next_cursor", JVal.null), ("history", .arr [])]) :=
  ⟨(C10_single_request_and_empty_defaults histAdapterEmpty 5 none).1,
   (C10_single_request_and_empty_defaults histAdapterEmpty 5 none).2.2
     ⟨none, none⟩ rfl rfl rfl⟩

end PipedriveMcp
